import Mathlib

/-
Verification development for the jpegtran GStreamer element
(src/plugins/gstjpegtran.c): a shallow embedding of the per-buffer
chain function `gst_jpegtran_chain`, the property plumbing
(`gst_jpegtran_init`, `gst_jpegtran_set_property`,
`gst_jpegtran_get_property`), and the external turbojpeg entry points
the chain calls.  External calls (buffer mapping, header probe,
allocation, transform, downstream push) are modelled by an environment
record that fixes each call's outcome; the chain is then a pure
function from that environment, the element state and the input buffer
to a flow-return value together with a trace of the observable events
it performs (maps, unmaps, error postings, pushes, unrefs), in source
order.
-/

namespace GstJpegtran

/-- The eight turbojpeg transform operations, in the order of the
`TJXOP_*` constants used by the element's `xop` property
(gstjpegtran.c lines 104-113). -/
inductive TJXOP where
  | NONE
  | HFLIP
  | VFLIP
  | TRANSPOSE
  | TRANSVERSE
  | ROT90
  | ROT180
  | ROT270
  deriving DecidableEq, Repr

/-- `TJFLAG_NOREALLOC` from turbojpeg.h: the transform must write inside
the caller-supplied buffer and never reallocate it (value 1024). -/
def TJFLAG_NOREALLOC : Nat := 1024

/-- `TJXOPT_TRIM` from turbojpeg.h (value 4): trim partial MCU blocks. -/
def TJXOPT_TRIM : Nat := 4

/-- `GST_FLOW_OK` (value 0). -/
def GST_FLOW_OK : Int := 0

/-- `GST_FLOW_ERROR` (value -5). -/
def GST_FLOW_ERROR : Int := -5

/-- Modelled from the spec: MCU block width per turbojpeg subsampling
constant (turbojpeg's `tjMCUWidth` table; the library source is outside
this repository).  Index order: 4:4:4, 4:2:2, 4:2:0, grayscale, 4:4:0,
4:1:1. -/
def tjMCUWidth (jpegSubsamp : Nat) : Nat :=
  match jpegSubsamp with
  | 0 => 8
  | 1 => 16
  | 2 => 16
  | 3 => 8
  | 4 => 8
  | _ => 32

/-- Modelled from the spec: MCU block height per turbojpeg subsampling
constant (turbojpeg's `tjMCUHeight` table). -/
def tjMCUHeight (jpegSubsamp : Nat) : Nat :=
  match jpegSubsamp with
  | 0 => 8
  | 1 => 8
  | 2 => 16
  | 3 => 8
  | 4 => 16
  | _ => 8

/-- Round `v` up to the next multiple of `p` (turbojpeg's `PAD` macro). -/
def PAD (v p : Nat) : Nat := (v + p - 1) / p * p

/-- Modelled from the spec: turbojpeg's `tjBufSize`, the worst-case
byte bound for a compressed image of the given geometry and
subsampling — a pure function of width, height and subsampling mode
only (the CapacityEstimator of the spec; the library source is outside
this repository). -/
def tjBufSize (width height jpegSubsamp : Nat) : Nat :=
  let mcuw := tjMCUWidth jpegSubsamp
  let mcuh := tjMCUHeight jpegSubsamp
  let chromasf := if jpegSubsamp = 3 then 0 else 4 * 64 / (mcuw * mcuh)
  PAD width mcuw * PAD height mcuh * (2 + chromasf) + 2048

/-- A GStreamer buffer as the chain observes it: presentation and
decode timestamps (`none` models `GST_CLOCK_TIME_NONE`) and a size in
bytes. -/
structure GstBuffer where
  pts : Option Nat
  dts : Option Nat
  size : Nat
  deriving DecidableEq, Repr

/-- `gst_buffer_new ()`: a fresh empty buffer; its timestamps are
`GST_CLOCK_TIME_NONE` and its size is 0. -/
def gst_buffer_new : GstBuffer :=
  { pts := Option.none, dts := Option.none, size := 0 }

/-- `gst_buffer_copy_region (src, GST_BUFFER_COPY_FLAGS |
GST_BUFFER_COPY_TIMESTAMPS | GST_BUFFER_COPY_META |
GST_BUFFER_COPY_MEMORY, offset, len)` as used at gstjpegtran.c line
370: the region shares `src`'s memory, copies `src`'s timestamps, and
reports `len` bytes. -/
def gst_buffer_copy_region (src : GstBuffer) (offset len : Nat) : GstBuffer :=
  { pts := src.pts, dts := src.dts, size := offset + len - offset }

/-- The element instance state the chain reads: the configured
transform operation (`filter->xop`). -/
structure Gstjpegtran where
  xop : TJXOP
  deriving DecidableEq, Repr

/-- `DEFAULT_XOP` (gstjpegtran.c line 98): `TJXOP_NONE`. -/
def DEFAULT_XOP : TJXOP := TJXOP.NONE

/-- The property id enum of gstjpegtran.c lines 70-74: `PROP_XOP` is 1
(`PROP_0` is 0). -/
def PROP_XOP : Nat := 1

/-- The property-relevant effect of `gst_jpegtran_init` (line 189):
`filter->xop = DEFAULT_XOP`. -/
def gst_jpegtran_init : Gstjpegtran :=
  { xop := DEFAULT_XOP }

/-- `gst_jpegtran_set_property` (lines 212-226): on `PROP_XOP` store
the enum value; any other id is ignored with a warning. -/
def gst_jpegtran_set_property (filter : Gstjpegtran) (prop_id : Nat)
    (value : TJXOP) : Gstjpegtran :=
  if prop_id = PROP_XOP then { filter with xop := value } else filter

/-- `gst_jpegtran_get_property` (lines 228-242): on `PROP_XOP` read
back `filter->xop`; any other id leaves the out-value unset. -/
def gst_jpegtran_get_property (filter : Gstjpegtran) (prop_id : Nat) :
    Option TJXOP :=
  if prop_id = PROP_XOP then Option.some filter.xop else Option.none

/-- The distinct `GST_ELEMENT_ERROR` sites inside the chain function,
in source order: input-map failure (line 294), header-decode failure
(line 309), output-map failure (line 338), transform failure
(line 355). -/
inductive ErrKind where
  | MapInput
  | Header
  | MapOutput
  | Transform
  deriving DecidableEq, Repr

/-- Observable events of one chain invocation, recorded in the order
the C code performs them. -/
inductive Ev where
  /-- `gst_buffer_map (inbuf, ..., GST_MAP_READ)` succeeded. -/
  | mapIn
  /-- `gst_buffer_unmap (inbuf, ...)`. -/
  | unmapIn
  /-- `gst_allocator_alloc` requested with the given capacity. -/
  | allocOut (capacity : Nat)
  /-- `gst_buffer_map (outbuf, ..., GST_MAP_WRITE)` succeeded. -/
  | mapOut
  /-- `gst_buffer_unmap (outbuf, ...)`. -/
  | unmapOut
  /-- `tjTransform` invoked: operation, `dstSizes[0]` on entry
  (the mapped output size), `xform.options`, `flags`. -/
  | tjCall (op : TJXOP) (dstSize : Nat) (options : Nat) (flags : Nat)
  /-- `gst_pad_push (self->srcpad, buf)`. -/
  | push (buf : GstBuffer)
  /-- `gst_buffer_unref (inbuf)`. -/
  | unrefIn
  /-- `gst_buffer_unref (outbuf)`. -/
  | unrefOut
  /-- A `GST_ELEMENT_ERROR` posting. -/
  | err (k : ErrKind)
  deriving DecidableEq, Repr

/-- Outcomes of the external calls made during one chain invocation.
`probeW`, `probeH`, `probeSub` are the values left in the `width`,
`height`, `jpegSubsamp` variables after `tjDecompressHeader3` returns
(the real geometry when `probeRet = 0`; whatever the library left —
the C code initialises them to 0 — when it fails).  `xformWritten` is
the value `tjTransform` leaves in `dstSizes[0]`. -/
structure ChainEnv where
  /-- Whether `gst_buffer_map` of the input buffer succeeds. -/
  mapInOk : Bool
  /-- Return value of `tjDecompressHeader3` (0 on success). -/
  probeRet : Int
  probeW : Nat
  probeH : Nat
  probeSub : Nat
  /-- Whether `gst_allocator_alloc` returns memory of the requested
  capacity (on failure the output buffer stays empty). -/
  allocOk : Bool
  /-- Whether `gst_buffer_map` of the output buffer succeeds. -/
  mapOutOk : Bool
  /-- Return value of `tjTransform` (negative on failure). -/
  xformRet : Int
  /-- Value left in `dstSizes[0]` by `tjTransform`. -/
  xformWritten : Nat
  /-- Return value of `gst_pad_push`. -/
  pushRet : Int
  deriving DecidableEq, Repr

/-- Result of one chain invocation: the `GstFlowReturn` and the event
trace. -/
structure ChainResult where
  ret : Int
  trace : List Ev
  deriving DecidableEq, Repr

/-- Shallow embedding of `gst_jpegtran_chain` (gstjpegtran.c lines
281-381), statement by statement:

* map the input; on failure post `MapInput`, unref the input, return
  `GST_FLOW_ERROR` (lines 293-298);
* `tjDecompressHeader3`; on failure post `Header` and fall through —
  the `// TODO` at line 311, no early return (lines 302-312);
* build `tjtransform` with `op = self->xop`, `options = TJXOPT_TRIM`,
  `flags = TJFLAG_NOREALLOC` (lines 323-327);
* `outbuf = gst_buffer_new ()`, allocate `tjBufSize (width, height,
  jpegSubsamp)` bytes and append them — the allocation result is not
  checked (lines 328-335);
* map the output; on failure post `MapOutput`, unref the output buffer
  only, return `GST_FLOW_ERROR` — the input stays mapped and is never
  unreffed on this path (lines 337-343);
* `tjTransform` with `dstSizes[0] = out_info.size`; on failure post
  `Transform` and fall through — the `// TODO error` at line 357
  (lines 345-358);
* unmap input and output (lines 367-368);
* `trimmedbuf = gst_buffer_copy_region (outbuf, ..., 0, dstSizes[0])`
  (lines 370-374);
* push `trimmedbuf`, unref input and output, return the push result
  (lines 376-380). -/
def gst_jpegtran_chain (env : ChainEnv) (self : Gstjpegtran)
    (inbuf : GstBuffer) : ChainResult :=
  if env.mapInOk = false then
    { ret := GST_FLOW_ERROR
      trace := [Ev.err ErrKind.MapInput, Ev.unrefIn] }
  else
    let headerErrs : List Ev :=
      if env.probeRet ≠ 0 then [Ev.err ErrKind.Header] else []
    let capacity := tjBufSize env.probeW env.probeH env.probeSub
    let outbuf : GstBuffer := gst_buffer_new
    let outMappedSize : Nat := if env.allocOk then capacity else 0
    let preOut : List Ev := Ev.mapIn :: headerErrs ++ [Ev.allocOut capacity]
    if env.mapOutOk = false then
      { ret := GST_FLOW_ERROR
        trace := preOut ++ [Ev.err ErrKind.MapOutput, Ev.unrefOut] }
    else
      let xformErrs : List Ev :=
        if env.xformRet < 0 then [Ev.err ErrKind.Transform] else []
      let dstSize0 : Nat := env.xformWritten
      let trimmedbuf := gst_buffer_copy_region outbuf 0 dstSize0
      { ret := env.pushRet
        trace := preOut
          ++ [Ev.mapOut,
              Ev.tjCall self.xop outMappedSize TJXOPT_TRIM TJFLAG_NOREALLOC]
          ++ xformErrs
          ++ [Ev.unmapIn, Ev.unmapOut, Ev.push trimmedbuf,
              Ev.unrefIn, Ev.unrefOut] }

/-- The buffers a trace pushes downstream, in order. -/
def pushedBufs (tr : List Ev) : List GstBuffer :=
  tr.filterMap fun e =>
    match e with
    | Ev.push b => Option.some b
    | _ => Option.none

/-- The `GST_ELEMENT_ERROR` kinds a trace posts, in order. -/
def errKinds (tr : List Ev) : List ErrKind :=
  tr.filterMap fun e =>
    match e with
    | Ev.err k => Option.some k
    | _ => Option.none

/-- The `tjTransform` invocations of a trace: operation, `dstSizes[0]`
on entry, options, flags. -/
def tjCalls (tr : List Ev) : List (TJXOP × Nat × Nat × Nat) :=
  tr.filterMap fun e =>
    match e with
    | Ev.tjCall op sz opts fl => Option.some (op, sz, opts, fl)
    | _ => Option.none

/-- How many `gst_buffer_unref (inbuf)` calls a trace performs. -/
def unrefInCount (tr : List Ev) : Nat :=
  (tr.filter fun e => e = Ev.unrefIn).length

/-- How many `gst_buffer_unmap (inbuf, ...)` calls a trace performs. -/
def unmapInCount (tr : List Ev) : Nat :=
  (tr.filter fun e => e = Ev.unmapIn).length

/-- How many successful maps of the input buffer a trace records. -/
def mapInCount (tr : List Ev) : Nat :=
  (tr.filter fun e => e = Ev.mapIn).length

/-- Scans a trace with the current open-map counts of the input and
output buffers; `true` iff no push happens while either buffer is
mapped. -/
def noPushWhileMapped : List Ev → Nat → Nat → Bool
  | [], _, _ => true
  | Ev.mapIn :: tr, inM, outM => noPushWhileMapped tr (inM + 1) outM
  | Ev.unmapIn :: tr, inM, outM => noPushWhileMapped tr (inM - 1) outM
  | Ev.mapOut :: tr, inM, outM => noPushWhileMapped tr inM (outM + 1)
  | Ev.unmapOut :: tr, inM, outM => noPushWhileMapped tr inM (outM - 1)
  | Ev.push _ :: tr, inM, outM =>
      inM = 0 && outM = 0 && noPushWhileMapped tr inM outM
  | _ :: tr, inM, outM => noPushWhileMapped tr inM outM

/-- An environment in which every external call succeeds: a valid
100x100 4:2:0 input, the transform writes 321 bytes, downstream
returns `GST_FLOW_OK`. -/
def envOk : ChainEnv :=
  { mapInOk := true
    probeRet := 0
    probeW := 100
    probeH := 100
    probeSub := 2
    allocOk := true
    mapOutOk := true
    xformRet := 0
    xformWritten := 321
    pushRet := GST_FLOW_OK }

/-- A concrete input buffer carrying timestamps. -/
def inbuf42 : GstBuffer :=
  { pts := Option.some 42, dts := Option.some 41, size := 1000 }

/-- A truncated/corrupt input: the header probe fails (and the
transform, fed the same bad bitstream, fails too). -/
def envTruncated : ChainEnv :=
  { envOk with
    probeRet := -1
    probeW := 0
    probeH := 0
    probeSub := 0
    xformRet := -1
    xformWritten := 0 }

/-- An environment in which only `tjTransform` fails. -/
def envXformFail : ChainEnv :=
  { envOk with xformRet := -1, xformWritten := 0 }

/-- An environment in which mapping the output buffer fails. -/
def envOutMapFail : ChainEnv :=
  { envOk with mapOutOk := false }

/-- An environment in which the allocator is exhausted: the output
buffer gets no memory, so the transform is handed a zero-byte region
and fails. -/
def envAllocFail : ChainEnv :=
  { envOk with allocOk := false, xformRet := -1, xformWritten := 0 }

end GstJpegtran

namespace GstJpegtran

/-- Claim C1, evaluated at a truncated input whose header probe fails:
the chain posts the header-decode error but does not short-circuit —
it goes on to allocate, invoke the transform, push one buffer
downstream, and return the push result (`GST_FLOW_OK`) instead of a
failure.  This exhibits the `// TODO` gap at gstjpegtran.c line 311. -/
theorem c1_header_failure_not_short_circuited :
    errKinds (gst_jpegtran_chain envTruncated gst_jpegtran_init inbuf42).trace
        = [ErrKind.Header, ErrKind.Transform]
    ∧ (pushedBufs
        (gst_jpegtran_chain envTruncated gst_jpegtran_init inbuf42).trace).length = 1
    ∧ (gst_jpegtran_chain envTruncated gst_jpegtran_init inbuf42).ret = GST_FLOW_OK := by
  decide

/-- Claim C2, evaluated at an input on which `tjTransform` returns a
negative result: the chain posts the transform error but does not
stop — it still trims, pushes one buffer downstream, and returns the
push result, contradicting "releases the allocated output buffer
without forwarding it".  This exhibits the `// TODO error` gap at
gstjpegtran.c line 357. -/
theorem c2_transform_failure_still_forwards :
    errKinds (gst_jpegtran_chain envXformFail gst_jpegtran_init inbuf42).trace
        = [ErrKind.Transform]
    ∧ (pushedBufs
        (gst_jpegtran_chain envXformFail gst_jpegtran_init inbuf42).trace).length = 1
    ∧ (gst_jpegtran_chain envXformFail gst_jpegtran_init inbuf42).ret = GST_FLOW_OK := by
  decide

/-- Claim C3, evaluated at an invocation in which mapping the output
buffer fails: the chain returns `GST_FLOW_ERROR` with the input buffer
still mapped (one map, zero unmaps) and never released (zero unrefs) —
the input reference is leaked on this exit path (gstjpegtran.c lines
337-343). -/
theorem c3_outmap_failure_leaks_input :
    mapInCount (gst_jpegtran_chain envOutMapFail gst_jpegtran_init inbuf42).trace = 1
    ∧ unmapInCount (gst_jpegtran_chain envOutMapFail gst_jpegtran_init inbuf42).trace = 0
    ∧ unrefInCount (gst_jpegtran_chain envOutMapFail gst_jpegtran_init inbuf42).trace = 0
    ∧ (gst_jpegtran_chain envOutMapFail gst_jpegtran_init inbuf42).ret = GST_FLOW_ERROR := by
  decide

/-- Claim C4, evaluated at a fully successful invocation of an input
buffer with timestamps 42/41: the buffer pushed downstream has no
timestamps at all, because `gst_buffer_copy_region` at gstjpegtran.c
line 370 copies the timestamps of the freshly created output buffer
(which are `GST_CLOCK_TIME_NONE`) rather than the input's. -/
theorem c4_timestamps_not_carried :
    pushedBufs (gst_jpegtran_chain envOk gst_jpegtran_init inbuf42).trace
        = [{ pts := Option.none, dts := Option.none, size := 321 }]
    ∧ inbuf42.pts = Option.some 42 := by
  decide

/-- Claim C5, evaluated at an invocation in which the allocator is
exhausted: the chain never checks the allocation result — no
allocation error is posted (the only error is the later transform
failure on the zero-byte region), the transform is invoked with a
zero-capacity output, one buffer is still pushed downstream, and the
push result is returned. -/
theorem c5_alloc_failure_unchecked :
    errKinds (gst_jpegtran_chain envAllocFail gst_jpegtran_init inbuf42).trace
        = [ErrKind.Transform]
    ∧ tjCalls (gst_jpegtran_chain envAllocFail gst_jpegtran_init inbuf42).trace
        = [(TJXOP.NONE, 0, TJXOPT_TRIM, TJFLAG_NOREALLOC)]
    ∧ (pushedBufs
        (gst_jpegtran_chain envAllocFail gst_jpegtran_init inbuf42).trace).length = 1
    ∧ (gst_jpegtran_chain envAllocFail gst_jpegtran_init inbuf42).ret = GST_FLOW_OK := by
  decide

/-- Claim C6: whenever both maps succeed and the allocation succeeds,
the chain invokes `tjTransform` exactly once, with the output region
size equal to `tjBufSize` of the probed (unrotated) width, height and
subsampling — an expression that does not mention the operation, hence
identical for all eight operations with no per-operation branching —
and with `flags = TJFLAG_NOREALLOC` (strict no-reallocation mode). -/
theorem c6_capacity_pure_and_norealloc (env : ChainEnv) (self : Gstjpegtran)
    (inbuf : GstBuffer) (hin : env.mapInOk = true) (hout : env.mapOutOk = true)
    (halloc : env.allocOk = true) :
    tjCalls (gst_jpegtran_chain env self inbuf).trace
      = [(self.xop, tjBufSize env.probeW env.probeH env.probeSub,
          TJXOPT_TRIM, TJFLAG_NOREALLOC)] := by
  rcases Decidable.em (env.probeRet ≠ 0) with hp | hp <;>
    rcases Decidable.em (env.xformRet < 0) with hx | hx <;>
      simp [gst_jpegtran_chain, hin, hout, halloc, hp, hx, tjCalls]

/-- Witness for C6 at the concrete all-success environment. -/
theorem c6_capacity_pure_and_norealloc_witness :
    tjCalls (gst_jpegtran_chain envOk gst_jpegtran_init inbuf42).trace
      = [(TJXOP.NONE, tjBufSize 100 100 2, TJXOPT_TRIM, TJFLAG_NOREALLOC)] :=
  c6_capacity_pure_and_norealloc envOk gst_jpegtran_init inbuf42 rfl rfl rfl

/-- Claim C7: for every operation value, `TJXOP_NONE` included, the
chain invokes the transform (nothing special-cases the operation out)
with the trim option set, and the buffer it forwards is trimmed to
exactly the `bytesWritten` the transform reported; under the
turbojpeg no-reallocation contract (modelled from the spec as the
hypothesis that a well-formed input yields `bytesWritten` at most the
estimated capacity), that forwarded size is at most the estimate. -/
theorem c7_trim_always_runs (env : ChainEnv) (self : Gstjpegtran)
    (inbuf : GstBuffer) (hin : env.mapInOk = true) (hout : env.mapOutOk = true)
    (halloc : env.allocOk = true)
    (hcontract : env.xformWritten ≤ tjBufSize env.probeW env.probeH env.probeSub) :
    tjCalls (gst_jpegtran_chain env self inbuf).trace
      = [(self.xop, tjBufSize env.probeW env.probeH env.probeSub,
          TJXOPT_TRIM, TJFLAG_NOREALLOC)]
    ∧ (pushedBufs (gst_jpegtran_chain env self inbuf).trace).map
        (fun b => b.size) = [env.xformWritten]
    ∧ env.xformWritten ≤ tjBufSize env.probeW env.probeH env.probeSub := by
  refine ⟨c6_capacity_pure_and_norealloc env self inbuf hin hout halloc, ?_, hcontract⟩
  rcases Decidable.em (env.probeRet ≠ 0) with hp | hp <;>
    rcases Decidable.em (env.xformRet < 0) with hx | hx <;>
      simp [gst_jpegtran_chain, gst_buffer_copy_region, gst_buffer_new,
        hin, hout, halloc, hp, hx, pushedBufs]

/-- Witness for C7 at the concrete all-success environment. -/
theorem c7_trim_always_runs_witness :
    tjCalls (gst_jpegtran_chain envOk gst_jpegtran_init inbuf42).trace
      = [(TJXOP.NONE, tjBufSize 100 100 2, TJXOPT_TRIM, TJFLAG_NOREALLOC)]
    ∧ (pushedBufs (gst_jpegtran_chain envOk gst_jpegtran_init inbuf42).trace).map
        (fun b => b.size) = [321]
    ∧ (321 : Nat) ≤ tjBufSize 100 100 2 :=
  c7_trim_always_runs envOk gst_jpegtran_init inbuf42 rfl rfl rfl (by decide)

/-- Claim C8: in every invocation — all environments, operations and
inputs — no buffer is pushed downstream while either the input or the
output buffer is still mapped: both unmaps precede the (sole) push. -/
theorem c8_no_push_while_mapped (env : ChainEnv) (self : Gstjpegtran)
    (inbuf : GstBuffer) :
    noPushWhileMapped (gst_jpegtran_chain env self inbuf).trace 0 0 = true := by
  cases hin : env.mapInOk <;> cases hout : env.mapOutOk <;>
    rcases Decidable.em (env.probeRet ≠ 0) with hp | hp <;>
      rcases Decidable.em (env.xformRet < 0) with hx | hx <;>
        simp [gst_jpegtran_chain, hin, hout, hp, hx, noPushWhileMapped]

/-- Claim C9: the `xop` property defaults to `TJXOP_NONE` at init;
setting then getting `PROP_XOP` returns the value just set, for every
operation value; and the operation the chain hands to `tjTransform` in
the next invocation is exactly the stored `xop` — so a property change
takes effect on the next processed buffer. -/
theorem c9_xop_property (s : Gstjpegtran) (v : TJXOP) (env : ChainEnv)
    (inbuf : GstBuffer) (hin : env.mapInOk = true) (hout : env.mapOutOk = true) :
    gst_jpegtran_init.xop = DEFAULT_XOP
    ∧ DEFAULT_XOP = TJXOP.NONE
    ∧ gst_jpegtran_get_property (gst_jpegtran_set_property s PROP_XOP v) PROP_XOP
        = Option.some v
    ∧ (tjCalls (gst_jpegtran_chain env (gst_jpegtran_set_property s PROP_XOP v)
        inbuf).trace).map (fun c => c.1) = [v] := by
  refine ⟨rfl, rfl, by simp [gst_jpegtran_get_property, gst_jpegtran_set_property], ?_⟩
  rcases Decidable.em (env.probeRet ≠ 0) with hp | hp <;>
    rcases Decidable.em (env.xformRet < 0) with hx | hx <;>
      simp [gst_jpegtran_chain, gst_jpegtran_set_property, hin, hout, hp, hx, tjCalls]

/-- Witness for C9: set `rot90` on the default instance. -/
theorem c9_xop_property_witness :
    gst_jpegtran_init.xop = DEFAULT_XOP
    ∧ DEFAULT_XOP = TJXOP.NONE
    ∧ gst_jpegtran_get_property
        (gst_jpegtran_set_property gst_jpegtran_init PROP_XOP TJXOP.ROT90) PROP_XOP
        = Option.some TJXOP.ROT90
    ∧ (tjCalls (gst_jpegtran_chain envOk
        (gst_jpegtran_set_property gst_jpegtran_init PROP_XOP TJXOP.ROT90)
        inbuf42).trace).map (fun c => c.1) = [TJXOP.ROT90] :=
  c9_xop_property gst_jpegtran_init TJXOP.ROT90 envOk inbuf42 rfl rfl

/-- Claim C10: whenever both the input and the output buffer map
successfully, exactly one buffer is pushed downstream and the chain's
return value is exactly the downstream push's flow result. -/
theorem c10_push_result_propagates (env : ChainEnv) (self : Gstjpegtran)
    (inbuf : GstBuffer) (hin : env.mapInOk = true) (hout : env.mapOutOk = true) :
    (pushedBufs (gst_jpegtran_chain env self inbuf).trace).length = 1
    ∧ (gst_jpegtran_chain env self inbuf).ret = env.pushRet := by
  rcases Decidable.em (env.probeRet ≠ 0) with hp | hp <;>
    rcases Decidable.em (env.xformRet < 0) with hx | hx <;>
      simp [gst_jpegtran_chain, hin, hout, hp, hx, pushedBufs]

/-- Witness for C10 at the concrete all-success environment. -/
theorem c10_push_result_propagates_witness :
    (pushedBufs (gst_jpegtran_chain envOk gst_jpegtran_init inbuf42).trace).length = 1
    ∧ (gst_jpegtran_chain envOk gst_jpegtran_init inbuf42).ret = envOk.pushRet :=
  c10_push_result_propagates envOk gst_jpegtran_init inbuf42 rfl rfl

end GstJpegtran
